import Mathlib

/-!
Shallow embedding of `syncthing-notifier.py` (event classification, per-batch
deduplication, the monitor loop's per-iteration behaviour, cursor persistence,
the notification sink, and the signal/exception handling), together with
theorems settling the specification claims about it.
-/

namespace SyncthingNotifier

/-- Python truthiness of `data.get('error')`: `None` and the empty string are
falsy, every other string is truthy. -/
def truthy : Option String → Bool
  | some s => !s.isEmpty
  | none => false

/-- Python string slicing `s[:n]` (by code points, as Python operates on
code points). -/
def pyTake (s : String) (n : Nat) : String := ⟨s.data.take n⟩

/-- Helper for substring search: does the first list lead the second
(list-level startswith)? -/
def leadsWith : List Char → List Char → Bool
  | [], _ => true
  | _ :: _, [] => false
  | a :: as, b :: bs => a == b && leadsWith as bs

/-- Helper for substring search over the characters of the haystack. -/
def occursInAux (pat : List Char) : List Char → Bool
  | [] => leadsWith pat []
  | b :: bs => leadsWith pat (b :: bs) || occursInAux pat bs

/-- Python's substring containment test `pat in s`. -/
def occursIn (pat s : String) : Bool := occursInAux pat.data s.data

/-- Python `s.endswith(t)`, used only to state facts about dispatched text. -/
def strEnds (s t : String) : Bool := leadsWith t.data.reverse s.data.reverse

/-- Slash-separated components of a path's character list. -/
def pathComponents : List Char → List (List Char)
  | [] => [[]]
  | c :: rest =>
    match pathComponents rest with
    | [] => [[]]
    | comp :: comps => if c = '/' then [] :: comp :: comps else (c :: comp) :: comps

/-- Python `pathlib.Path(item).name`: the last nonempty slash-separated
component of the path (empty for the root or the empty path).  Pathlib
additionally collapses single-dot components, which this model does not;
the difference never reaches a dedup key of the program. -/
def pathName (s : String) : String :=
  match ((pathComponents s.data).filter (fun c => !c.isEmpty)).reverse with
  | [] => ""
  | comp :: _ => ⟨comp⟩

/-- The `notify_on` table of the user configuration (`DEFAULT_USER_CONFIG`
and `config.json`). -/
structure NotifyOn where
  folder_errors : Bool
  item_errors : Bool
  conflicts : Bool
deriving DecidableEq

/-- User preferences consumed by `monitor_events`. -/
structure UserConfig where
  notify_on : NotifyOn
  notification_sound : Bool
  check_interval_on_error : Nat
deriving DecidableEq

/-- One entry of the `errors` list of a `FolderErrors` event's data;
`error` is optional because the code reads it with
`errors[0].get('error', 'Unknown error')`. -/
structure ErrorEntry where
  error : Option String
deriving DecidableEq

/-- The `data` mapping of a raw event; every field the code reads is read
with `.get`, so every field is optional (`errors` defaults to `[]`). -/
structure EventData where
  folder : Option String
  item : Option String
  error : Option String
  errors : List ErrorEntry
deriving DecidableEq

/-- A raw event from the `/rest/events` stream: `event['id']`,
`event['type']`, `event.get('data', \x7b\x7d)`. -/
structure Event where
  id : Nat
  type : String
  data : EventData
deriving DecidableEq

/-- Notification categories, the first components of the dedup-key tuples. -/
inductive Category
  | folderError
  | itemError
  | conflict
deriving DecidableEq

/-- The tag string the code places first in each category's dedup-key
tuple. -/
def categoryTag : Category → String
  | Category.folderError => "FolderError"
  | Category.itemError => "ItemError"
  | Category.conflict => "Conflict"

/-- A dedup key: the Python tuples `('FolderError', folder, first_error)`,
`('ItemError', folder, item, error)`, `('Conflict', folder, item)` are
modelled as the tag paired with the list of remaining fields. -/
abbrev Key := String × List String

/-- A notification intent, carrying the arguments of the corresponding
`send_notification` call plus the dedup key and its category. -/
structure Intent where
  category : Category
  dedup_key : Key
  title : String
  message : String
  subtitle : String
deriving DecidableEq

/-- Truncation of a folder error message (line 209-210 of the source):
over 100 characters becomes the first 97 plus an ellipsis. -/
def truncFolderError (s : String) : String :=
  if s.length > 100 then pyTake s 97 ++ "..." else s

/-- Truncation of the item display name (line 233-234 of the source):
over 50 characters becomes the first 47 plus an ellipsis. -/
def truncItemName (s : String) : String :=
  if s.length > 50 then pyTake s 47 ++ "..." else s

/-- Truncation of the item error body (line 242 of the source):
`error[:100] if len(error) > 100 else error` — no ellipsis appended. -/
def truncItemBody (s : String) : String :=
  if s.length > 100 then pyTake s 100 else s

/-- The event classifier: the per-event body of the `for event in events`
loop of `monitor_events`, with the dedup/dispatch bookkeeping factored out.
It returns the intents the event gives rise to, in program order.  The
conflict check is nested inside the `elif event_type == 'ItemFinished' and
item_errors` branch of the source, exactly as in the code, so a single
`ItemFinished` event can yield both an ItemError and a Conflict intent. -/
def classify (cfg : UserConfig) (ev : Event) : List Intent :=
  if ev.type = "FolderErrors" ∧ cfg.notify_on.folder_errors = true then
    match ev.data.errors with
    | [] => []
    | e0 :: rest =>
      let folder := ev.data.folder.getD "Unknown"
      let error_count := (e0 :: rest).length
      let first_error := truncFolderError (e0.error.getD "Unknown error")
      [{ category := Category.folderError
         dedup_key := ("FolderError", [folder, first_error])
         title := "Syncthing Folder Error"
         message := first_error
         subtitle := "Folder: " ++ folder ++ " (" ++ toString error_count ++ " error(s))" }]
  else if ev.type = "ItemFinished" ∧ cfg.notify_on.item_errors = true then
    (match ev.data.error with
     | some error =>
       if error.isEmpty then []
       else
         let item := ev.data.item.getD "Unknown"
         let folder := ev.data.folder.getD "Unknown"
         let item_name := truncItemName (pathName item)
         [{ category := Category.itemError
            dedup_key := ("ItemError", [folder, item, error])
            title := "Syncthing Sync Error"
            message := truncItemBody error
            subtitle := item_name ++ " in " ++ folder }]
     | none => []) ++
    (if cfg.notify_on.conflicts = true then
       let item := ev.data.item.getD ""
       if occursIn ".sync-conflict-" item = true then
         let folder := ev.data.folder.getD "Unknown"
         [{ category := Category.conflict
            dedup_key := ("Conflict", [folder, item])
            title := "Syncthing Conflict"
            message := pathName item
            subtitle := "Folder: " ++ folder }]
       else []
     else [])
  else []

/-- The dedup bookkeeping for the intents of one event: each intent's key is
checked against the seen set, and on a miss the key is inserted and the
intent dispatched (mirrors the `dedup_key not in seen_notifications` /
`seen_notifications.add` pattern).  Returns the dispatched intents and the
updated seen set. -/
def dedupIntents : List Intent → List Key → List Intent × List Key
  | [], seen => ([], seen)
  | i :: is, seen =>
    if i.dedup_key ∈ seen then dedupIntents is seen
    else
      (i :: (dedupIntents is (i.dedup_key :: seen)).1,
       (dedupIntents is (i.dedup_key :: seen)).2)

/-- Processing of a batch's events against a seen set: the `for event in
events` loop, returning the dispatched intents in dispatch order and the
final seen set. -/
def processEvents (cfg : UserConfig) : List Event → List Key → List Intent × List Key
  | [], seen => ([], seen)
  | ev :: rest, seen =>
    ((dedupIntents (classify cfg ev) seen).1 ++
       (processEvents cfg rest (dedupIntents (classify cfg ev) seen).2).1,
     (processEvents cfg rest (dedupIntents (classify cfg ev) seen).2).2)

/-- Full processing of one batch: `seen_notifications = set()` is created
empty at the start of the batch, so processing starts from the empty seen
set. -/
def processBatch (cfg : UserConfig) (events : List Event) : List Intent :=
  (processEvents cfg events []).1

/-- The running-cursor update of the batch loop: `last_event_id =
event['id']` for each event in order, so the result is the last event's id
(or the incoming cursor for an empty batch). -/
def batchCursor (cursor : Nat) (events : List Event) : Nat :=
  events.foldl (fun _ ev => ev.id) cursor

/-- Result of one `make_request` call as seen by the loop: `None` (any
network or parse failure) or a JSON list of events (possibly empty). -/
inductive FetchResult
  | transientError
  | batch (events : List Event)
deriving DecidableEq

/-- Observable effects of one iteration of the `while True` loop. -/
structure StepResult where
  sleep : Option Nat
  dispatched : List Intent
  saved : Option Nat
  cursor : Nat
deriving DecidableEq

/-- One iteration of the `while True` loop of `monitor_events`, given the
fetch outcome: on `None` sleep `check_interval_on_error` and continue with
the cursor unchanged; on an empty list continue immediately; on a nonempty
batch process it and save the final cursor once. -/
def loopStep (cfg : UserConfig) (cursor : Nat) (r : FetchResult) : StepResult :=
  match r with
  | FetchResult.transientError =>
    { sleep := some cfg.check_interval_on_error
      dispatched := []
      saved := none
      cursor := cursor }
  | FetchResult.batch [] =>
    { sleep := none
      dispatched := []
      saved := none
      cursor := cursor }
  | FetchResult.batch (ev :: rest) =>
    { sleep := none
      dispatched := processBatch cfg (ev :: rest)
      saved := some (batchCursor cursor (ev :: rest))
      cursor := batchCursor cursor (ev :: rest) }

/-- The long-poll URL built each iteration (line 181 of the source); the
`since` parameter is the in-memory cursor. -/
def eventsUrl (base_url : String) (since : Nat) : String :=
  base_url ++ "/rest/events?since=" ++ toString since ++
    "&events=FolderErrors,ItemFinished,StateChanged&timeout=60"

/-! Cursor store: `load_last_event_id` / `save_last_event_id`.  The store is
modelled as `Option String` — the cursor file's contents, or `none` when the
file is absent. -/

/-- Characters removed by Python's `str.strip()`. -/
def isPySpace (c : Char) : Bool :=
  c = ' ' || c = '\t' || c = '\n' || c = '\r' || c = '\x0b' || c = '\x0c'

/-- Python `str.strip()`: whitespace removed from both ends. -/
def pyStrip (s : String) : String :=
  ⟨((s.data.dropWhile isPySpace).reverse.dropWhile isPySpace).reverse⟩

/-- Digit-run scanner for Python `int()`: digits with single underscores
allowed strictly between digits.  The flag records whether the previous
character was an underscore (which must then be followed by a digit). -/
def goDigits : Nat → List Char → Bool → Option Nat
  | acc, [], lastU => if lastU then none else some acc
  | acc, c :: rest, lastU =>
    if c.isDigit then goDigits (acc * 10 + (c.toNat - 48)) rest false
    else if c = '_' then (if lastU then none else goDigits acc rest true)
    else none

/-- Unsigned part of Python `int()`: a nonempty digit run starting with a
digit. -/
def pyIntCore : List Char → Option Nat
  | [] => none
  | c :: rest => if c.isDigit then goDigits (c.toNat - 48) rest false else none

/-- Python `int(s)` on an already-stripped string: optional sign followed
by a digit run; anything else raises `ValueError`, modelled as `none`.
ASCII digits only (Python also accepts Unicode decimal digits, which the
program never writes): every string this model rejects that Python would
accept still loads as a well-formed integer there, and every string
Python rejects is rejected here. -/
def pyInt (s : String) : Option Int :=
  match s.data with
  | [] => none
  | c :: rest =>
    if c = '+' then (pyIntCore rest).map (fun n => (n : Int))
    else if c = '-' then (pyIntCore rest).map (fun n => -(n : Int))
    else (pyIntCore (c :: rest)).map (fun n => (n : Int))

/-- Decimal digits of a natural number, most significant first (Python
`str` of a non-negative int). -/
def natDigs (n : Nat) : List Char :=
  if _h : n < 10 then [Nat.digitChar n]
  else natDigs (n / 10) ++ [Nat.digitChar (n % 10)]
decreasing_by exact Nat.div_lt_self (by omega) (by omega)

/-- Python `str(n)` for a non-negative integer. -/
def pyStr (n : Nat) : String := ⟨natDigs n⟩

/-- Models `save_last_event_id`: the file afterwards holds
`str(event_id)`. -/
def save_last_event_id (event_id : Nat) : Option String := some (pyStr event_id)

/-- Models `load_last_event_id`: `0` when the file is absent, otherwise
`int(contents.strip())` with `ValueError` mapped to `0`. -/
def load_last_event_id (store : Option String) : Int :=
  match store with
  | none => 0
  | some contents =>
    match pyInt (pyStrip contents) with
    | some n => n
    | none => 0

/-! Notifier sink: `send_notification`. -/

/-- Outcome of `subprocess.run(['osascript', '-e', script], check=True)`:
the command succeeds; or it runs and exits nonzero, raising
`CalledProcessError`; or the OS fails to spawn it at all (e.g. the
`osascript` binary is absent), raising an `OSError` such as
`FileNotFoundError`. -/
inductive SubprocessResult
  | success
  | calledProcessError (returncode : Int)
  | osError (msg : String)
deriving DecidableEq

/-- The AppleScript source built by `send_notification` (quote escaping,
optional subtitle clause, optional sound clause). -/
def buildScript (title message subtitle : String) (sound : Bool) : String :=
  let message := message.replace "\"" "\\\""
  let title := title.replace "\"" "\\\""
  let subtitle := subtitle.replace "\"" "\\\""
  let script :=
    if subtitle.isEmpty then
      "display notification \"" ++ message ++ "\" with title \"" ++ title ++ "\""
    else
      "display notification \"" ++ message ++ "\" with title \"" ++ title ++
        "\" subtitle \"" ++ subtitle ++ "\""
  if sound then script ++ " sound name \"default\"" else script

/-- Models `send_notification`: builds the script, runs it through the
given subprocess behaviour, and swallows `CalledProcessError` — and only
that (`except subprocess.CalledProcessError: pass`): an `OSError` from
the spawn is matched by no clause and escapes to the caller.  The
`Except` result records whether an exception escapes. -/
def send_notification (title message subtitle : String) (sound : Bool)
    (run : String → SubprocessResult) : Except String Unit :=
  match run (buildScript title message subtitle sound) with
  | SubprocessResult.success => Except.ok ()
  | SubprocessResult.calledProcessError _ => Except.ok ()
  | SubprocessResult.osError msg => Except.error msg

/-! Signal handling and the loop's exception dispatch. -/

/-- Exception classes relevant to the `try`/`except` clauses of
`monitor_events`: `KeyboardInterrupt` and `SystemExit` derive from
`BaseException` but not from `Exception`; `otherError` stands for any
`Exception` subclass. -/
inductive PyExc
  | keyboardInterrupt
  | systemExit
  | otherError
deriving DecidableEq

/-- Models `signal_handler` (installed for both `SIGINT` and `SIGTERM` in
`main`): it calls `sys.exit(0)`, which raises `SystemExit`. -/
def signal_handler : PyExc := PyExc.systemExit

/-- Reaction of the `try`/`except` clauses inside `monitor_events`'
`while True` loop to an exception raised during an iteration. -/
inductive LoopReaction
  | saveAndStop
  | sleepAndContinue
  | propagateNoSave
deriving DecidableEq

/-- Exception dispatch of `monitor_events`: `except KeyboardInterrupt`
saves the cursor and breaks; `except Exception` sleeps five seconds and
continues; `SystemExit` matches neither clause (it is not an `Exception`
subclass), so it propagates out of `monitor_events` — and out of `main`,
whose clauses also only catch `Exception` subclasses — without any call to
`save_last_event_id`. -/
def monitorCatch : PyExc → LoopReaction
  | PyExc.keyboardInterrupt => LoopReaction.saveAndStop
  | PyExc.systemExit => LoopReaction.propagateNoSave
  | PyExc.otherError => LoopReaction.sleepAndContinue

/-! Concrete inputs used by the counterexamples and witnesses. -/

/-- Preferences with every category enabled (the defaults). -/
def cfgAll : UserConfig :=
  { notify_on := { folder_errors := true, item_errors := true, conflicts := true }
    notification_sound := true
    check_interval_on_error := 5 }

/-- Preferences with `item_errors` disabled but `conflicts` enabled. -/
def cfgNoItemErr : UserConfig :=
  { notify_on := { folder_errors := true, item_errors := false, conflicts := true }
    notification_sound := true
    check_interval_on_error := 5 }

/-- An `ItemFinished` event with both a non-empty `error` and a
conflict-marker item path. -/
def evBoth : Event :=
  { id := 4
    type := "ItemFinished"
    data := { folder := some "Docs"
              item := some "notes.sync-conflict-20240101-120000-AAAA.txt"
              error := some "permission denied"
              errors := [] } }

/-- An `ItemFinished` event with a conflict-marker item path and no
`error` field. -/
def evConflictNoErr : Event :=
  { id := 3
    type := "ItemFinished"
    data := { folder := some "F"
              item := some "report.sync-conflict-20240101-120000-AAAA.txt"
              error := none
              errors := [] } }

/-- A 101-character error message (one over the 100-character limit). -/
def longErr : String := ⟨List.replicate 101 'a'⟩

/-- An `ItemFinished` event whose `error` is 101 characters long. -/
def evLongErr : Event :=
  { id := 1
    type := "ItemFinished"
    data := { folder := some "F"
              item := some "f.txt"
              error := some longErr
              errors := [] } }

/-- A conflict-file name of 69 characters (well over the 50-character
display-name limit). -/
def longConfName : String :=
  "report-final.sync-conflict-20240101-120000-AAAA-eaaaaaaaaaaaaaaaa.txt"

/-- An `ItemFinished` event with no error whose conflict-marker file name
is 69 characters long. -/
def evLongConf : Event :=
  { id := 2
    type := "ItemFinished"
    data := { folder := some "F"
              item := some ("dir/" ++ longConfName)
              error := none
              errors := [] } }

/-- The Conflict intent that `classify` produces for `evLongConf`. -/
def wConflictIntent : Intent :=
  { category := Category.conflict
    dedup_key := ("Conflict", ["F", "dir/" ++ longConfName])
    title := "Syncthing Conflict"
    message := longConfName
    subtitle := "Folder: F" }

/-- A `FolderErrors` event whose data has no `folder` field. -/
def evNoFolder : Event :=
  { id := 6
    type := "FolderErrors"
    data := { folder := none
              item := none
              error := none
              errors := [{ error := some "disk full" }] } }

/-- An `ItemFinished` event with an error but no `item` field. -/
def evNoItem : Event :=
  { id := 7
    type := "ItemFinished"
    data := { folder := some "Docs"
              item := none
              error := some "io error"
              errors := [] } }

/-- The ItemError intent that `classify` produces for `evBoth`. -/
def wItemIntent : Intent :=
  { category := Category.itemError
    dedup_key := ("ItemError",
      ["Docs", "notes.sync-conflict-20240101-120000-AAAA.txt", "permission denied"])
    title := "Syncthing Sync Error"
    message := "permission denied"
    subtitle := "notes.sync-conflict-20240101-120000-AAAA.txt in Docs" }

/-- The Conflict intent that `classify` produces for `evBoth`. -/
def wBothConflictIntent : Intent :=
  { category := Category.conflict
    dedup_key := ("Conflict", ["Docs", "notes.sync-conflict-20240101-120000-AAAA.txt"])
    title := "Syncthing Conflict"
    message := "notes.sync-conflict-20240101-120000-AAAA.txt"
    subtitle := "Folder: Docs" }

/-! Helper lemmas. -/

theorem dedupIntents_spec (is : List Intent) : ∀ seen : List Key,
    ((dedupIntents is seen).1.map Intent.dedup_key).Nodup ∧
    (∀ k ∈ (dedupIntents is seen).1.map Intent.dedup_key, k ∉ seen) ∧
    (∀ k, k ∈ (dedupIntents is seen).2 ↔
      k ∈ seen ∨ k ∈ (dedupIntents is seen).1.map Intent.dedup_key) := by
  induction is with
  | nil => intro seen; simp [dedupIntents]
  | cons i is ih =>
    intro seen
    by_cases h : i.dedup_key ∈ seen
    · simpa [dedupIntents, h] using ih seen
    · obtain ⟨h1, h2, h3⟩ := ih (i.dedup_key :: seen)
      simp only [dedupIntents, if_neg h]
      refine ⟨?_, ?_, ?_⟩
      · simp only [List.map_cons, List.nodup_cons]
        exact ⟨fun hmem => (h2 _ hmem) (List.mem_cons_self _ _), h1⟩
      · intro k hk
        simp only [List.map_cons, List.mem_cons] at hk
        rcases hk with rfl | hk
        · exact h
        · exact fun hks => (h2 _ hk) (List.mem_cons_of_mem _ hks)
      · intro k
        rw [h3 k]
        simp only [List.map_cons, List.mem_cons]
        tauto

theorem processEvents_spec (cfg : UserConfig) (evs : List Event) : ∀ seen : List Key,
    ((processEvents cfg evs seen).1.map Intent.dedup_key).Nodup ∧
    (∀ k ∈ (processEvents cfg evs seen).1.map Intent.dedup_key, k ∉ seen) ∧
    (∀ k, k ∈ (processEvents cfg evs seen).2 ↔
      k ∈ seen ∨ k ∈ (processEvents cfg evs seen).1.map Intent.dedup_key) := by
  induction evs with
  | nil => intro seen; simp [processEvents]
  | cons ev rest ih =>
    intro seen
    obtain ⟨d1, d2, d3⟩ := dedupIntents_spec (classify cfg ev) seen
    obtain ⟨p1, p2, p3⟩ := ih (dedupIntents (classify cfg ev) seen).2
    simp only [processEvents, List.map_append]
    refine ⟨?_, ?_, ?_⟩
    · rw [List.nodup_append]
      refine ⟨d1, p1, ?_⟩
      intro k hk1 hk2
      exact p2 k hk2 ((d3 k).mpr (Or.inr hk1))
    · intro k hk
      rcases List.mem_append.mp hk with hk | hk
      · exact d2 k hk
      · exact fun hks => p2 k hk ((d3 k).mpr (Or.inl hks))
    · intro k
      rw [p3 k, d3 k, List.mem_append]
      tauto

theorem classify_key_tag (cfg : UserConfig) (ev : Event) (i : Intent)
    (hi : i ∈ classify cfg ev) : i.dedup_key.1 = categoryTag i.category := by
  simp only [classify] at hi
  split at hi
  · split at hi
    · exact absurd hi (List.not_mem_nil i)
    · simp only [List.mem_singleton] at hi
      subst hi
      rfl
  · split at hi
    · rw [List.mem_append] at hi
      rcases hi with hi | hi
      · split at hi
        · split at hi
          · exact absurd hi (List.not_mem_nil i)
          · simp only [List.mem_singleton] at hi
            subst hi
            rfl
        · exact absurd hi (List.not_mem_nil i)
      · split at hi
        · split at hi
          · simp only [List.mem_singleton] at hi
            subst hi
            rfl
          · exact absurd hi (List.not_mem_nil i)
        · exact absurd hi (List.not_mem_nil i)
    · exact absurd hi (List.not_mem_nil i)

theorem categoryTag_inj (a b : Category) (h : categoryTag a = categoryTag b) : a = b := by
  cases a <;> cases b <;>
    first
    | rfl
    | (simp only [categoryTag] at h; exact absurd h (by decide))

theorem leadsWith_append_self : ∀ (l r : List Char), leadsWith l (l ++ r) = true := by
  intro l r
  induction l with
  | nil => rfl
  | cons a as ih => simp [leadsWith, ih]

theorem strEnds_append (x t : String) : strEnds (x ++ t) t = true := by
  have hdata : (x ++ t).data = x.data ++ t.data := rfl
  unfold strEnds
  rw [hdata, List.reverse_append]
  exact leadsWith_append_self t.data.reverse x.data.reverse

theorem pyTake_length (s : String) (n : Nat) : (pyTake s n).length = min n s.length :=
  List.length_take n s.data

theorem digitChar_props (d : Nat) (h : d < 10) :
    (Nat.digitChar d).isDigit = true ∧ (Nat.digitChar d).toNat - 48 = d := by
  interval_cases d <;> exact ⟨by decide, by decide⟩

theorem isDigit_props (c : Char) (h : c.isDigit = true) :
    c ≠ '_' ∧ c ≠ '+' ∧ c ≠ '-' ∧ isPySpace c = false := by
  refine ⟨?_, ?_, ?_, ?_⟩
  · rintro rfl; exact absurd h (by decide)
  · rintro rfl; exact absurd h (by decide)
  · rintro rfl; exact absurd h (by decide)
  · by_contra hps
    rw [Bool.not_eq_false] at hps
    simp only [isPySpace, Bool.or_eq_true, decide_eq_true_eq] at hps
    rcases hps with ((((rfl | rfl) | rfl) | rfl) | rfl) | rfl <;> exact absurd h (by decide)

theorem natDigs_digits (n : Nat) : ∀ c ∈ natDigs n, c.isDigit = true := by
  induction n using Nat.strong_induction_on with
  | _ n ih =>
    intro c hc
    rw [natDigs] at hc
    split at hc
    next hlt =>
      simp only [List.mem_singleton] at hc
      subst hc
      exact (digitChar_props n hlt).1
    next hge =>
      rw [List.mem_append] at hc
      rcases hc with hc | hc
      · exact ih (n / 10) (Nat.div_lt_self (by omega) (by omega)) c hc
      · simp only [List.mem_singleton] at hc
        subst hc
        exact (digitChar_props (n % 10) (Nat.mod_lt _ (by omega))).1

theorem natDigs_ne_nil (n : Nat) : natDigs n ≠ [] := by
  rw [natDigs]
  split
  · simp
  · simp

theorem natDigs_foldl (n : Nat) : ∀ acc : Nat,
    (natDigs n).foldl (fun a c => a * 10 + (c.toNat - 48)) acc =
      acc * 10 ^ (natDigs n).length + n := by
  induction n using Nat.strong_induction_on with
  | _ n ih =>
    intro acc
    rw [natDigs]
    split
    next hlt =>
      simp only [List.foldl_cons, List.foldl_nil, List.length_singleton]
      rw [(digitChar_props n hlt).2]
      simp [pow_one]
    next hge =>
      rw [List.foldl_append, List.length_append,
        ih (n / 10) (Nat.div_lt_self (by omega) (by omega)) acc]
      simp only [List.foldl_cons, List.foldl_nil, List.length_singleton]
      rw [(digitChar_props (n % 10) (Nat.mod_lt _ (by omega))).2, pow_succ, ← mul_assoc]
      generalize acc * 10 ^ (natDigs (n / 10)).length = A
      omega

theorem goDigits_all_digits (l : List Char) : ∀ acc : Nat, (∀ c ∈ l, c.isDigit = true) →
    goDigits acc l false = some (l.foldl (fun a c => a * 10 + (c.toNat - 48)) acc) := by
  induction l with
  | nil => intro acc _; rfl
  | cons c rest ih =>
    intro acc hall
    have hc : c.isDigit = true := hall c (List.mem_cons_self _ _)
    simp only [goDigits, hc, if_true, List.foldl_cons]
    exact ih _ (fun d hd => hall d (List.mem_cons_of_mem _ hd))

theorem pyIntCore_natDigs (n : Nat) : pyIntCore (natDigs n) = some n := by
  obtain ⟨c, rest, hcr⟩ := List.exists_cons_of_ne_nil (natDigs_ne_nil n)
  have hdig := natDigs_digits n
  rw [hcr] at hdig
  have hc : c.isDigit = true := hdig c (List.mem_cons_self _ _)
  rw [hcr]
  simp only [pyIntCore, hc, if_true]
  rw [goDigits_all_digits rest (c.toNat - 48)
    (fun d hd => hdig d (List.mem_cons_of_mem _ hd))]
  congr 1
  have hfold := natDigs_foldl n 0
  rw [hcr] at hfold
  simpa using hfold

theorem pyInt_pyStr (n : Nat) : pyInt (pyStr n) = some (n : Int) := by
  obtain ⟨c, rest, hcr⟩ := List.exists_cons_of_ne_nil (natDigs_ne_nil n)
  have hdig := natDigs_digits n
  have hc : c.isDigit = true := by
    rw [hcr] at hdig
    exact hdig c (List.mem_cons_self _ _)
  have hprops := isDigit_props c hc
  rw [show pyStr n = ⟨c :: rest⟩ from by rw [pyStr, hcr]]
  simp only [pyInt]
  rw [if_neg hprops.2.1, if_neg hprops.2.2.1, ← hcr, pyIntCore_natDigs]
  rfl

theorem dropWhile_all_false {p : Char → Bool} (l : List Char)
    (h : ∀ c ∈ l, p c = false) : l.dropWhile p = l := by
  cases l with
  | nil => rfl
  | cons a as =>
    rw [List.dropWhile_cons, h a (List.mem_cons_self _ _)]
    simp

theorem pyStrip_no_ws (l : List Char) (h : ∀ c ∈ l, isPySpace c = false) :
    pyStrip ⟨l⟩ = ⟨l⟩ := by
  show String.mk (((l.dropWhile isPySpace).reverse.dropWhile isPySpace).reverse) = String.mk l
  rw [dropWhile_all_false l h,
    dropWhile_all_false l.reverse (fun c hc => h c (List.mem_reverse.mp hc)),
    List.reverse_reverse]

/-! Claim theorems. -/

/-- C4: within one loop iteration no two dispatched intents share a dedup
key — the seen set starts empty for each batch (`seen_notifications =
set()` at the top of the batch) and every dispatch is guarded by a
membership check and insertion, so suppression never carries over between
batches. -/
theorem claim4_batch_dedup (cfg : UserConfig) (c : Nat) (r : FetchResult) :
    ((loopStep cfg c r).dispatched.map Intent.dedup_key).Nodup ∧
    ∀ evs : List Event,
      (loopStep cfg c (FetchResult.batch evs)).dispatched = (processEvents cfg evs []).1 := by
  constructor
  · cases r with
    | transientError => simp [loopStep]
    | batch evs =>
      cases evs with
      | nil => simp [loopStep]
      | cons ev rest => exact (processEvents_spec cfg (ev :: rest) []).1
  · intro evs
    cases evs with
    | nil => simp [loopStep, processEvents]
    | cons ev rest => rfl

/-- C5: persisting a non-negative cursor value and loading it back returns
the same value; loading from an absent store, or from contents that do not
parse as an integer, returns 0 — `load_last_event_id` is a total function
and never fails. -/
theorem claim5_cursor_roundtrip (v : Nat) (s : String)
    (hs : pyInt (pyStrip s) = none) :
    load_last_event_id (save_last_event_id v) = (v : Int) ∧
    load_last_event_id none = 0 ∧
    load_last_event_id (some s) = 0 := by
  refine ⟨?_, rfl, ?_⟩
  · show load_last_event_id (some (pyStr v)) = (v : Int)
    have hws : ∀ c ∈ natDigs v, isPySpace c = false :=
      fun c hc => (isDigit_props c (natDigs_digits v c hc)).2.2.2
    simp only [load_last_event_id]
    rw [show pyStr v = ⟨natDigs v⟩ from rfl, pyStrip_no_ws _ hws,
      show (⟨natDigs v⟩ : String) = pyStr v from rfl, pyInt_pyStr]
  · simp only [load_last_event_id, hs]

/-- C5 witness: round trip at 42, absent store, and a corrupt store. -/
theorem claim5_cursor_roundtrip_witness :
    load_last_event_id (save_last_event_id 42) = (42 : Int) ∧
    load_last_event_id none = 0 ∧
    load_last_event_id (some "not a number") = 0 :=
  claim5_cursor_roundtrip 42 "not a number" (by decide)

/-- C6: a transient fetch failure makes the loop sleep for
`check_interval_on_error`, dispatch nothing, save nothing, and retry with
the same cursor (hence the same `since` in the next request URL); an empty
batch makes it retry immediately with no sleep and no cursor change. -/
theorem claim6_transient_and_empty (cfg : UserConfig) (c : Nat) (base_url : String) :
    loopStep cfg c FetchResult.transientError =
      { sleep := some cfg.check_interval_on_error, dispatched := [], saved := none, cursor := c } ∧
    eventsUrl base_url (loopStep cfg c FetchResult.transientError).cursor = eventsUrl base_url c ∧
    loopStep cfg c (FetchResult.batch []) =
      { sleep := none, dispatched := [], saved := none, cursor := c } :=
  ⟨rfl, rfl, rfl⟩

/-- C7 counterexample: when the spawn of `osascript` fails with an
`OSError` (e.g. `FileNotFoundError` because the binary is absent),
`send_notification` does NOT return normally — the exception escapes,
and as an `Exception` subclass it is then caught by the loop's
`except Exception` clause, which sleeps and abandons the rest of the
batch — so the claim's "the sink call always returns normally and the
loop's state is unaffected" is false. -/
theorem claim7_counterexample :
    send_notification "Syncthing Monitor Started" "Monitoring" "" true
        (fun _ => SubprocessResult.osError "FileNotFoundError: osascript") =
      Except.error "FileNotFoundError: osascript" ∧
    monitorCatch PyExc.otherError = LoopReaction.sleepAndContinue ∧
    monitorCatch PyExc.otherError ≠ LoopReaction.saveAndStop :=
  ⟨rfl, rfl, by decide⟩

/-- C7 (amended): a failure of the `osascript` dispatch itself — the
command runs and exits nonzero, raising `CalledProcessError` — is
swallowed: whenever the subprocess outcome is not an OS-level spawn
failure, `send_notification` returns normally and no exception reaches
the monitor loop; but an `OSError` from the spawn is not caught by
`send_notification` and propagates into the loop, whose
`except Exception` handler sleeps five seconds and abandons the
remainder of the batch. -/
theorem claim7_sink_amended (title message subtitle : String) (sound : Bool)
    (run : String → SubprocessResult) :
    ((∀ msg, run (buildScript title message subtitle sound) ≠ SubprocessResult.osError msg) →
      send_notification title message subtitle sound run = Except.ok ()) ∧
    (∀ msg, run (buildScript title message subtitle sound) = SubprocessResult.osError msg →
      send_notification title message subtitle sound run = Except.error msg ∧
      monitorCatch PyExc.otherError = LoopReaction.sleepAndContinue) := by
  constructor
  · intro h
    unfold send_notification
    cases hr : run (buildScript title message subtitle sound) with
    | success => rfl
    | calledProcessError rc => rfl
    | osError msg => exact absurd hr (h msg)
  · intro msg hmsg
    unfold send_notification
    rw [hmsg]
    exact ⟨rfl, rfl⟩

/-- C7 witness: a dispatch that exits nonzero (`CalledProcessError`) is
swallowed and the sink returns normally. -/
theorem claim7_sink_amended_witness :
    send_notification "Syncthing Conflict" "m" "Folder: F" true
      (fun _ => SubprocessResult.calledProcessError 1) = Except.ok () :=
  (claim7_sink_amended "Syncthing Conflict" "m" "Folder: F" true
      (fun _ => SubprocessResult.calledProcessError 1)).1
    (fun _ h => SubprocessResult.noConfusion h)

/-- C9 (evaluating the code at the failing input): the exception raised by
`signal_handler` (`SystemExit` from `sys.exit(0)`, installed for both
`SIGINT` and `SIGTERM`) is matched by neither `except KeyboardInterrupt`
nor `except Exception` in `monitor_events`, so it propagates without the
cursor being saved — even though the (now unreachable by signal) dead
`except KeyboardInterrupt` branch shows the code meant to save it. -/
theorem claim9_signal_no_save :
    monitorCatch signal_handler = LoopReaction.propagateNoSave ∧
    monitorCatch signal_handler ≠ LoopReaction.saveAndStop ∧
    monitorCatch PyExc.keyboardInterrupt = LoopReaction.saveAndStop :=
  ⟨rfl, by decide, rfl⟩

/-- C10: every dedup key produced by the classifier starts with its
category's tag, so two classified intents with equal dedup keys always
have the same category — intents of different categories never
deduplicate against each other. -/
theorem claim10_key_category (cfg1 cfg2 : UserConfig) (ev1 ev2 : Event) (i1 i2 : Intent)
    (h1 : i1 ∈ classify cfg1 ev1) (h2 : i2 ∈ classify cfg2 ev2)
    (hne : i1.category ≠ i2.category) :
    i1.dedup_key ≠ i2.dedup_key := by
  intro hk
  apply hne
  apply categoryTag_inj
  rw [← classify_key_tag cfg1 ev1 i1 h1, ← classify_key_tag cfg2 ev2 i2 h2, hk]

/-- C10 witness: the ItemError and Conflict intents of `evBoth` have
different categories and indeed different dedup keys. -/
theorem claim10_key_category_witness :
    wItemIntent.dedup_key ≠ wBothConflictIntent.dedup_key :=
  claim10_key_category cfgAll cfgAll evBoth evBoth wItemIntent wBothConflictIntent
    (by decide) (by decide) (by decide)

/-- C1 counterexample: with both `item_errors` and `conflicts` enabled, the
`ItemFinished` event `evBoth` — non-empty `error` and conflict-marker item
path — dispatches TWO intents, an ItemError followed by a Conflict: the
conflict check is a separate `if` inside the same branch, not suppressed
by the error case, so the claim's "exactly one intent, never Conflict" is
false. -/
theorem claim1_counterexample :
    cfgAll.notify_on.item_errors = true ∧
    cfgAll.notify_on.conflicts = true ∧
    truthy evBoth.data.error = true ∧
    occursIn ".sync-conflict-" (evBoth.data.item.getD "") = true ∧
    (processBatch cfgAll [evBoth]).map Intent.category =
      [Category.itemError, Category.conflict] := by
  decide

/-- C1 (amended): for every `ItemFinished` event with a truthy `error` and
a conflict-marker item path, with `item_errors` and `conflicts` both
enabled, processing that event dispatches exactly two intents — first an
ItemError, then a Conflict; the ItemError does not suppress the
Conflict. -/
theorem claim1_both_intents (cfg : UserConfig) (ev : Event)
    (hty : ev.type = "ItemFinished")
    (hie : cfg.notify_on.item_errors = true)
    (hc : cfg.notify_on.conflicts = true)
    (herr : truthy ev.data.error = true)
    (it : String) (hit : ev.data.item = some it)
    (hmark : occursIn ".sync-conflict-" it = true) :
    (processBatch cfg [ev]).map Intent.category = [Category.itemError, Category.conflict] := by
  obtain ⟨e, he, hne⟩ : ∃ e, ev.data.error = some e ∧ e.isEmpty = false := by
    cases h : ev.data.error with
    | none => rw [h] at herr; simp [truthy] at herr
    | some e =>
      refine ⟨e, rfl, ?_⟩
      rw [h] at herr
      simpa [truthy] using herr
  simp only [processBatch, processEvents, dedupIntents, classify, hty, he, hit, hne, hc, hie,
    hmark, Option.getD_some, List.map]

/-- C1 witness: the amended claim instantiated at `evBoth` under the
all-enabled preferences. -/
theorem claim1_both_intents_witness :
    (processBatch cfgAll [evBoth]).map Intent.category =
      [Category.itemError, Category.conflict] :=
  claim1_both_intents cfgAll evBoth rfl rfl rfl (by decide)
    "notes.sync-conflict-20240101-120000-AAAA.txt" rfl (by decide)

/-- C2 counterexample: with `conflicts=true` but `item_errors=false`, the
no-error conflict-marker event `evConflictNoErr` yields NO intent at all —
the conflict check is nested inside the `item_errors`-gated branch, so a
Conflict intent is not emitted even though the `conflicts` flag is true. -/
theorem claim2_counterexample :
    cfgNoItemErr.notify_on.conflicts = true ∧
    cfgNoItemErr.notify_on.item_errors = false ∧
    evConflictNoErr.data.error = none ∧
    occursIn ".sync-conflict-" (evConflictNoErr.data.item.getD "") = true ∧
    processBatch cfgNoItemErr [evConflictNoErr] = [] := by
  decide

/-- C2 (amended): for every `ItemFinished` event with no `error` field
whose item path contains the conflict-marker substring, a Conflict intent
is emitted exactly when BOTH the `conflicts` and the `item_errors`
preference flags are true (with `item_errors=false` the conflict check is
never reached). -/
theorem claim2_conflict_requires_both_flags (cfg : UserConfig) (ev : Event)
    (hty : ev.type = "ItemFinished") (herr : ev.data.error = none)
    (it : String) (hit : ev.data.item = some it)
    (hmark : occursIn ".sync-conflict-" it = true) :
    (processBatch cfg [ev]).map Intent.category =
      (if cfg.notify_on.conflicts && cfg.notify_on.item_errors then [Category.conflict]
       else []) := by
  cases hco : cfg.notify_on.conflicts <;> cases hie : cfg.notify_on.item_errors <;>
    simp only [processBatch, processEvents, dedupIntents, classify, hty, herr, hit, hco, hie,
      hmark, Option.getD_some, List.map, Bool.and_self, Bool.and_false, Bool.false_and,
      Bool.true_and, Bool.and_true, if_true, if_false] <;> simp

/-- C2 witness: the amended claim instantiated at `evConflictNoErr`, once
with both flags enabled (Conflict emitted) — the `item_errors=false` side
is the counterexample theorem. -/
theorem claim2_conflict_requires_both_flags_witness :
    (processBatch cfgAll [evConflictNoErr]).map Intent.category =
      (if cfgAll.notify_on.conflicts && cfgAll.notify_on.item_errors then [Category.conflict]
       else []) :=
  claim2_conflict_requires_both_flags cfgAll evConflictNoErr rfl rfl
    "report.sync-conflict-20240101-120000-AAAA.txt" rfl (by decide)

/-- C3 counterexample: the dispatched body of an over-limit ItemError
message is the bare first 100 characters with no ellipsis marker, and an
over-limit Conflict display name is dispatched entirely unchanged — both
contradict "truncated and ends with an ellipsis marker". -/
theorem claim3_counterexample :
    longErr.length = 101 ∧
    (processBatch cfgAll [evLongErr]).map Intent.message = [pyTake longErr 100] ∧
    strEnds (pyTake longErr 100) "..." = false ∧
    longConfName.length = 69 ∧
    (processBatch cfgAll [evLongConf]).map Intent.message = [longConfName] := by
  decide

/-- C3 (amended): a FolderError first error message longer than 100
characters is truncated to its first 97 characters plus an ellipsis (total
100, ending in "..."); an ItemError body longer than 100 characters is
truncated to its bare first 100 characters with no ellipsis appended; a
Conflict display name is dispatched unchanged whatever its length;
messages at or under their limit are unchanged. -/
theorem claim3_truncation_amended (s : String) (cfg : UserConfig) (ev : Event) (i : Intent)
    (hi : i ∈ classify cfg ev) (hconf : i.category = Category.conflict) :
    (s.length > 100 →
      truncFolderError s = pyTake s 97 ++ "..." ∧
      (truncFolderError s).length = 100 ∧
      strEnds (truncFolderError s) "..." = true ∧
      truncItemBody s = pyTake s 100) ∧
    (s.length ≤ 100 → truncFolderError s = s ∧ truncItemBody s = s) ∧
    i.message = pathName (ev.data.item.getD "") := by
  refine ⟨fun h => ?_, fun h => ?_, ?_⟩
  · refine ⟨by simp [truncFolderError, h], ?_, ?_, by simp [truncItemBody, h]⟩
    · simp only [truncFolderError, h, if_pos]
      rw [String.length_append, pyTake_length]
      have h3 : ("..." : String).length = 3 := rfl
      omega
    · simp only [truncFolderError, h, if_pos]
      exact strEnds_append (pyTake s 97) "..."
  · constructor
    · simp only [truncFolderError]
      rw [if_neg (by omega)]
    · simp only [truncItemBody]
      rw [if_neg (by omega)]
  · simp only [classify] at hi
    split at hi
    · split at hi
      · exact absurd hi (List.not_mem_nil i)
      · simp only [List.mem_singleton] at hi
        subst hi
        simp at hconf
    · split at hi
      · rw [List.mem_append] at hi
        rcases hi with hi | hi
        · split at hi
          · split at hi
            · exact absurd hi (List.not_mem_nil i)
            · simp only [List.mem_singleton] at hi
              subst hi
              simp at hconf
          · exact absurd hi (List.not_mem_nil i)
        · split at hi
          · split at hi
            · simp only [List.mem_singleton] at hi
              subst hi
              rfl
            · exact absurd hi (List.not_mem_nil i)
          · exact absurd hi (List.not_mem_nil i)
      · exact absurd hi (List.not_mem_nil i)

/-- C3 witness: the amended claim instantiated at the 101-character error
message and the Conflict intent of `evLongConf` (whose 69-character display
name is dispatched unchanged). -/
theorem claim3_truncation_amended_witness :
    (longErr.length > 100 →
      truncFolderError longErr = pyTake longErr 97 ++ "..." ∧
      (truncFolderError longErr).length = 100 ∧
      strEnds (truncFolderError longErr) "..." = true ∧
      truncItemBody longErr = pyTake longErr 100) ∧
    (longErr.length ≤ 100 →
      truncFolderError longErr = longErr ∧ truncItemBody longErr = longErr) ∧
    wConflictIntent.message = pathName (evLongConf.data.item.getD "") :=
  claim3_truncation_amended longErr cfgAll evLongConf wConflictIntent (by decide) rfl

/-- C8: classification substitutes the literal "Unknown" placeholder for a
missing `folder` (FolderErrors) and a missing `item` (ItemFinished error)
— the dedup-key fields below are the substituted values — and processing
an event never aborts the batch: the remaining events are always processed
against the updated seen set. -/
theorem claim8_defaults (cfg : UserConfig) (ev1 ev2 : Event) (en : ErrorEntry)
    (rest : List ErrorEntry)
    (h1ty : ev1.type = "FolderErrors") (h1flag : cfg.notify_on.folder_errors = true)
    (h1f : ev1.data.folder = none) (h1e : ev1.data.errors = en :: rest)
    (h2ty : ev2.type = "ItemFinished") (h2flag : cfg.notify_on.item_errors = true)
    (h2i : ev2.data.item = none) (e : String) (h2e : ev2.data.error = some e)
    (h2ne : e.isEmpty = false) :
    ((classify cfg ev1).map (fun i => i.dedup_key.2.head?) = [some "Unknown"]) ∧
    ((classify cfg ev2).map (fun i => i.dedup_key.2.get? 1) = [some "Unknown"]) ∧
    (∀ (e0 : Event) (rest0 : List Event) (seen : List Key),
      (processEvents cfg (e0 :: rest0) seen).1 =
        (dedupIntents (classify cfg e0) seen).1 ++
          (processEvents cfg rest0 (dedupIntents (classify cfg e0) seen).2).1) := by
  refine ⟨?_, ?_, fun e0 rest0 seen => rfl⟩
  · simp [classify, h1ty, h1flag, h1f, h1e]
  · have hocc : occursIn ".sync-conflict-" "" = false := rfl
    simp [classify, h2ty, h2e, h2i, h2ne, h2flag, hocc]

/-- C8 witness: the defaults claim instantiated at `evNoFolder` (missing
`folder`) and `evNoItem` (missing `item`). -/
theorem claim8_defaults_witness :
    ((classify cfgAll evNoFolder).map (fun i => i.dedup_key.2.head?) = [some "Unknown"]) ∧
    ((classify cfgAll evNoItem).map (fun i => i.dedup_key.2.get? 1) = [some "Unknown"]) ∧
    (∀ (e0 : Event) (rest0 : List Event) (seen : List Key),
      (processEvents cfgAll (e0 :: rest0) seen).1 =
        (dedupIntents (classify cfgAll e0) seen).1 ++
          (processEvents cfgAll rest0 (dedupIntents (classify cfgAll e0) seen).2).1) :=
  claim8_defaults cfgAll evNoFolder evNoItem { error := some "disk full" } [] rfl rfl rfl rfl
    rfl rfl rfl "io error" rfl (by decide)

end SyncthingNotifier
